import Mathlib

/-!
Verification of the remote-query pipeline of scratchdata.

Shallow embedding of `pkg/destinations/ssh/ssh.go` and
`pkg/filestore/s3/s3.go`.  Effectful SSH/SFTP operations are modelled by a
record of operations (`SSHOps`) threading an abstract state, so that the
same transcription of the Go control flow can be interpreted both over an
oracle of step results (error propagation, traces) and over a model of the
remote host's mutable state (idempotence of provisioning).
-/

namespace Scratch

/-- One entry of a remote directory listing, as returned by
`sshClient.Sftp().ReadDir`: a name and whether the entry is a directory. -/
structure DirEntry where
  name : String
  isDir : Bool
  deriving DecidableEq, Repr

/-- The table-discovery loop of `queryDuckDB` (ssh.go lines 81-91):
start from the empty list and append `file.Name()` for every entry with
`file.IsDir()`. -/
def discoverTables (files : List DirEntry) : List String :=
  files.foldl (fun tables f => if f.isDir then tables ++ [f.name] else tables) []

/-- The per-table relation clause of `queryDuckDB` (ssh.go line 100):
`fmt.Sprintf("\nWITH \"%s\" as (select * from read_parquet('%s/%s/*.parquet', filename=true,file_row_number=true,union_by_name=true)) ", table, s.Directory, table)`. -/
def relationClause (directory table : String) : String :=
  "\nWITH \"" ++ table ++
    "\" as (select * from read_parquet('" ++ directory ++ "/" ++ table ++
    "/*.parquet', filename=true,file_row_number=true,union_by_name=true)) "

/-- The SQL-script construction of `queryDuckDB` (ssh.go lines 94-103):
a fixed prefix, then one relation clause per table with a `","` before every
clause except the first (the Go loop tests `i > 0`), then the user query
wrapped as `" SELECT * FROM (" + query + ") "`. -/
def buildSQL (directory : String) (tables : List String) (query : String) : String :=
  let sql := "INSTALL 'parquet'; LOAD 'parquet'; "
  let sql := tables.enum.foldl
    (fun acc it =>
      (if it.1 > 0 then acc ++ "," else acc) ++ relationClause directory it.2)
    sql
  sql ++ " SELECT * FROM (" ++ query ++ ") "

/-- Comma-join of the relation clauses: the first clause has no leading
separator, each subsequent clause is preceded by a comma. -/
def joinComma : List String → String
  | [] => ""
  | [c] => c
  | c :: cs => c ++ "," ++ joinComma cs

/-- Helper: joining all remaining clauses, each preceded by a comma. -/
def joinCommaTail : List String → String
  | [] => ""
  | c :: cs => "," ++ c ++ joinCommaTail cs

/-- Modelled from the spec: `util.TrimQuery` (package `util`), called by
`QueryJSON` (ssh.go line 156) but not itself under `src/`.  The spec makes it
a "mandatory sanitation step" that "must reject or strip statement-terminator
sequences" from the inbound user query; modelled as stripping every SQL
statement terminator `;` from the query text. -/
def TrimQuery (query : String) : String :=
  ⟨query.data.filter (fun c => c ≠ ';')⟩

/-- Events observable on the SSH channel, one per remote operation the Go
code performs.  `closeConn` is the event a `sshClient.Close()` call would
emit; the code contains no such call, so no interpretation ever emits it. -/
inductive Step where
  | connect
  | runLine (cmd : String)
  | sftpUp (localPath remotePath : String)
  | readDirStep (path : String)
  | newSession
  | stdinPipe
  | startCmd (cmd : String)
  | writeSQL (sql : String)
  | closeStdin
  | waitExit
  | closeSession
  | closeConn
  deriving DecidableEq, Repr

/-- The SSH/SFTP operations used by ssh.go, abstracted over an effect state
`σ` and an error type `E`, so the same transcription of the Go control flow
can be run against different models of the remote host. -/
structure SSHOps (σ E : Type) where
  connect : σ → σ × Except E Unit
  runCmd : String → σ → σ × Except E Unit
  sftpUpload : String → String → σ → σ × Except E Unit
  readDir : String → σ → σ × Except E (List DirEntry)
  newSession : σ → σ × Except E Unit
  stdinPipe : σ → σ × Except E Unit
  start : String → σ → σ × Except E Unit
  writeStr : String → σ → σ × Except E Unit
  closeStdin : σ → σ × Except E Unit
  wait : σ → σ × Except E Unit
  closeSession : σ → σ

/-- `setupDuckDB` (ssh.go lines 49-77): `mkdir -p` the directory (failure is
fatal); probe with `./duckdb`; on any probe failure upload the bundled binary
and `chmod 755` it (failure of either is fatal); otherwise return nil. -/
def setupDuckDB {σ E : Type} (ops : SSHOps σ E) (directory : String) (s : σ) :
    σ × Except E Unit :=
  match ops.runCmd ("mkdir -p " ++ directory) s with
  | (s, .error e) => (s, .error e)
  | (s, .ok _) =>
    match ops.runCmd "./duckdb" s with
    | (s, .ok _) => (s, .ok ())
    | (s, .error _) =>
      match ops.sftpUpload "pkg/destinations/ssh/duckdb" "duckdb" s with
      | (s, .error e) => (s, .error e)
      | (s, .ok _) =>
        match ops.runCmd "chmod 755 duckdb" s with
        | (s, .error e) => (s, .error e)
        | (s, .ok _) => (s, .ok ())

/-- The part of `queryDuckDB` running inside the session whose `Close` is
deferred (ssh.go lines 114-142): open the stdin pipe, start
`./duckdb --json`, write the SQL, close stdin, wait for exit. -/
def queryDuckDBSession {σ E : Type} (ops : SSHOps σ E) (sql : String) (s : σ) :
    σ × Except E Unit :=
  match ops.stdinPipe s with
  | (s, .error e) => (s, .error e)
  | (s, .ok _) =>
    match ops.start "./duckdb --json" s with
    | (s, .error e) => (s, .error e)
    | (s, .ok _) =>
      match ops.writeStr sql s with
      | (s, .error e) => (s, .error e)
      | (s, .ok _) =>
        match ops.closeStdin s with
        | (s, .error e) => (s, .error e)
        | (s, .ok _) => ops.wait s

/-- `queryDuckDB` (ssh.go lines 79-143): list the remote directory (failure
is fatal), collect subdirectory names as tables, build the SQL script, open a
session (its `Close` is deferred, so it runs on every later exit path), then
run the piped subprocess exchange. -/
def queryDuckDB {σ E : Type} (ops : SSHOps σ E) (directory query : String) (s : σ) :
    σ × Except E Unit :=
  match ops.readDir directory s with
  | (s, .error e) => (s, .error e)
  | (s, .ok files) =>
    let tables := discoverTables files
    let sql := buildSQL directory tables query
    match ops.newSession s with
    | (s, .error e) => (s, .error e)
    | (s, .ok _) =>
      match queryDuckDBSession ops sql s with
      | (s, r) => (ops.closeSession s, r)

/-- `QueryJSON` (ssh.go lines 145-159): connect, provision DuckDB, sanitize
the query, run it.  No step closes the SSH connection. -/
def QueryJSON {σ E : Type} (ops : SSHOps σ E) (directory query : String) (s : σ) :
    σ × Except E Unit :=
  match ops.connect s with
  | (s, .error e) => (s, .error e)
  | (s, .ok _) =>
    match setupDuckDB ops directory s with
    | (s, .error e) => (s, .error e)
    | (s, .ok _) => queryDuckDB ops directory (TrimQuery query) s

/-- Discriminator for SQL-write events in a trace. -/
def Step.isWrite : Step → Bool
  | .writeSQL _ => true
  | _ => false

/-- Observable effect state for the oracle interpretation: the ordered list
of remote operations performed so far, and the bytes written to the caller's
sink (`writer`). -/
structure TraceSt where
  trace : List Step
  sink : String
  deriving DecidableEq, Repr

/-- The empty trace: nothing performed, nothing written to the sink. -/
def TraceSt.init : TraceSt := ⟨[], ""⟩

/-- An oracle fixing the outcome of every remote operation of one request:
`cmdR` gives the exit status of `sshClient.Cmd(cmd).Run()` for each command
string, the other fields the outcome of the other operations.  `output` is
what the subprocess writes to the sink while being waited on. -/
structure Oracle (E : Type) where
  connectR : Except E Unit
  cmdR : String → Except E Unit
  uploadR : Except E Unit
  readDirR : Except E (List DirEntry)
  newSessionR : Except E Unit
  stdinPipeR : Except E Unit
  startR : Except E Unit
  writeR : Except E Unit
  closeStdinR : Except E Unit
  waitR : Except E Unit
  output : String

/-- Record one performed operation in the trace. -/
def logStep (st : TraceSt) (s : Step) : TraceSt :=
  { st with trace := st.trace ++ [s] }

/-- Interpret the SSH operations against an oracle, recording every
performed operation.  The subprocess output reaches the sink at the `wait`
step, before the exit status is examined — partial output is written even
when the wait fails.  There is no operation that emits `Step.closeConn`:
the Go code never closes the SSH client. -/
def oracleOps {E : Type} (o : Oracle E) : SSHOps TraceSt E where
  connect st := (logStep st .connect, o.connectR)
  runCmd cmd st := (logStep st (.runLine cmd), o.cmdR cmd)
  sftpUpload lp rp st := (logStep st (.sftpUp lp rp), o.uploadR)
  readDir p st := (logStep st (.readDirStep p), o.readDirR)
  newSession st := (logStep st .newSession, o.newSessionR)
  stdinPipe st := (logStep st .stdinPipe, o.stdinPipeR)
  start cmd st := (logStep st (.startCmd cmd), o.startR)
  writeStr sql st := (logStep st (.writeSQL sql), o.writeR)
  closeStdin st := (logStep st .closeStdin, o.closeStdinR)
  wait st := ({ logStep st .waitExit with sink := st.sink ++ o.output }, o.waitR)
  closeSession st := logStep st .closeSession

/-- Environment model of the remote host for the provisioning claims: the
working directory's existence, whether the duckdb binary is present and
executable, environment flags fixing whether mkdir/upload/chmod succeed, and
a count of attempted binary uploads. -/
structure Remote where
  dirExists : Bool
  binPresent : Bool
  binExec : Bool
  mkdirOk : Bool
  uploadOk : Bool
  chmodOk : Bool
  uploads : Nat
  deriving DecidableEq, Repr

/-- Environment model of `sshClient.Cmd(cmd).Run()` on the remote host:
the probe `./duckdb` succeeds exactly when the binary is present and
executable; `chmod 755 duckdb` marks it executable; `mkdir -p` creates the
directory and succeeds also when it already exists. -/
def remoteRunCmd (cmd : String) (r : Remote) : Remote × Except Unit Unit :=
  if cmd = "./duckdb" then
    (r, if r.binPresent && r.binExec then .ok () else .error ())
  else if cmd = "chmod 755 duckdb" then
    if r.chmodOk then ({ r with binExec := true }, .ok ()) else (r, .error ())
  else
    if r.mkdirOk then ({ r with dirExists := true }, .ok ()) else (r, .error ())

/-- Interpret the SSH operations against the remote-host state model: an
SFTP upload makes the binary present (and is counted); the remaining
operations are irrelevant to provisioning. -/
def remoteOps : SSHOps Remote Unit where
  connect r := (r, .ok ())
  runCmd := remoteRunCmd
  sftpUpload _ _ r :=
    if r.uploadOk then
      ({ r with binPresent := true, uploads := r.uploads + 1 }, .ok ())
    else
      ({ r with uploads := r.uploads + 1 }, .error ())
  readDir _ r := (r, .ok [])
  newSession r := (r, .ok ())
  stdinPipe r := (r, .ok ())
  start _ r := (r, .ok ())
  writeStr _ r := (r, .ok ())
  closeStdin r := (r, .ok ())
  wait r := (r, .ok ())
  closeSession r := r

/-- A concrete oracle where every remote operation succeeds, the listing
holds directories `events` and `users` and a stray file, and the subprocess
emits one JSON line. -/
def okOracle : Oracle String where
  connectR := .ok ()
  cmdR _ := .ok ()
  uploadR := .ok ()
  readDirR := .ok [⟨"events", true⟩, ⟨"users", true⟩, ⟨"stray.parquet", false⟩]
  newSessionR := .ok ()
  stdinPipeR := .ok ()
  startR := .ok ()
  writeR := .ok ()
  closeStdinR := .ok ()
  waitR := .ok ()
  output := "\x7b\"count\": 2\x7d\n"

/-- `InsertBatchFromNDJson` (ssh.go lines 22-24): unconditionally
`errors.New("Not implemented for ssh")`. -/
def InsertBatchFromNDJson (input : String) : Except String Unit :=
  .error "Not implemented for ssh"

/-- An error coming back from the AWS SDK: either an `awserr.Error` carrying
an API error code (the case `errors.As(err, &awsErr)` matches), or a plain
error. -/
inductive AwsErr where
  | api (code msg : String)
  | plain (msg : String)
  deriving DecidableEq, Repr

/-- The AWS SDK constant `s3.ErrCodeNoSuchBucket`. -/
def ErrCodeNoSuchBucket : String := "NoSuchBucket"

/-- The message of the underlying error, used when wrapping with `%w`. -/
def AwsErr.msg : AwsErr → String
  | .api _ m => m
  | .plain m => m

/-- The test `errors.As(err, &awsErr) && awsErr.Code() == s3.ErrCodeNoSuchBucket`
(s3.go line 48, negated there). -/
def AwsErr.isNoSuchBucket : AwsErr → Bool
  | .api c _ => c = ErrCodeNoSuchBucket
  | .plain _ => false

/-- Oracle for one `Storage.Upload` call: the reader's offset on entry, and
the outcome of each S3/reader operation in the order the code can perform
them (`none` = success). -/
structure S3World where
  entryPos : Int
  seekCurErr : Option String
  put1 : Option AwsErr
  createErr : Option String
  seekSetErr : Option String
  put2 : Option AwsErr
  deriving DecidableEq, Repr

/-- Observable S3/reader operations of `Storage.Upload`: `putObject` records
the bucket, the key and the reader position the put reads from. -/
inductive S3Act where
  | seekCurrent
  | putObject (bucket key : String) (pos : Int)
  | createBucket (bucket : String)
  | seekStart (pos : Int)
  deriving DecidableEq, Repr

/-- The part of `Storage` that `Upload` depends on. -/
structure Storage where
  bucket : String
  deriving DecidableEq, Repr

/-- `Storage.Upload` (s3.go lines 29-64): remember the reader position; put;
on success return nil; if the failure is not an aws NoSuchBucket error,
return it; otherwise create the bucket, seek the reader back to the
remembered position, and retry the put exactly once. -/
def Storage.Upload (s : Storage) (w : S3World) (path : String) :
    List S3Act × Except String Unit :=
  match w.seekCurErr with
  | some e => ([.seekCurrent],
      .error ("Storage.Upload: Cannnot get current file position: " ++ e))
  | none =>
    let rPos := w.entryPos
    match w.put1 with
    | none => ([.seekCurrent, .putObject s.bucket path rPos], .ok ())
    | some err =>
      if !err.isNoSuchBucket then
        ([.seekCurrent, .putObject s.bucket path rPos],
          .error ("Storage.Upload: " ++ path ++ ": " ++ err.msg))
      else
        match w.createErr with
        | some e => ([.seekCurrent, .putObject s.bucket path rPos,
            .createBucket s.bucket],
            .error ("Storage.Upload: " ++ path ++ ": Cannot create bucket: " ++ e))
        | none =>
          match w.seekSetErr with
          | some e => ([.seekCurrent, .putObject s.bucket path rPos,
              .createBucket s.bucket, .seekStart rPos],
              .error ("Storage.Upload: Cannnot set file position: " ++ e))
          | none =>
            match w.put2 with
            | some err2 => ([.seekCurrent, .putObject s.bucket path rPos,
                .createBucket s.bucket, .seekStart rPos,
                .putObject s.bucket path rPos],
                .error ("Storage.Upload: " ++ path ++ ": " ++ err2.msg))
            | none => ([.seekCurrent, .putObject s.bucket path rPos,
                .createBucket s.bucket, .seekStart rPos,
                .putObject s.bucket path rPos], .ok ())

end Scratch

namespace Scratch

theorem joinComma_cons (c : String) (cs : List String) :
    joinComma (c :: cs) = c ++ joinCommaTail cs := by
  induction cs generalizing c with
  | nil => simp [joinComma, joinCommaTail, String.append_empty]
  | cons d ds ih =>
      simp only [joinComma, joinCommaTail, ih d, String.append_assoc]

theorem buildSQL_foldl_from_one (directory : String) (cs : List String)
    (n : Nat) (acc : String) :
    (List.enumFrom (n + 1) cs).foldl
      (fun acc it =>
        (if it.1 > 0 then acc ++ "," else acc) ++ relationClause directory it.2)
      acc
    = acc ++ joinCommaTail (cs.map (relationClause directory)) := by
  induction cs generalizing n acc with
  | nil => simp [joinCommaTail, String.append_empty]
  | cons c cs ih =>
      simp only [List.enumFrom, List.foldl_cons, List.map_cons, joinCommaTail]
      rw [if_pos (Nat.succ_pos n), ih (n + 1)]
      simp [String.append_assoc]

/-- Closed form of the script builder: prefix, comma-joined clauses, wrapped
user query. -/
theorem buildSQL_eq (directory query : String) (tables : List String) :
    buildSQL directory tables query
      = "INSTALL 'parquet'; LOAD 'parquet'; "
        ++ joinComma (tables.map (relationClause directory))
        ++ (" SELECT * FROM (" ++ query ++ ") ") := by
  cases tables with
  | nil =>
      simp only [buildSQL, List.enum, List.enumFrom, List.foldl_nil, List.map_nil,
        joinComma, String.append_empty, String.append_assoc]
  | cons t ts =>
      simp only [buildSQL, List.enum]
      rw [show List.enumFrom 0 (t :: ts) = (0, t) :: List.enumFrom 1 ts from rfl]
      simp only [List.foldl_cons, if_neg (by decide : ¬ (0 : Nat) > 0)]
      rw [show (1 : Nat) = 0 + 1 from rfl, buildSQL_foldl_from_one]
      rw [List.map_cons, joinComma_cons]
      simp [String.append_assoc]

theorem discoverTables_go (files : List DirEntry) (acc : List String) :
    files.foldl (fun tables f => if f.isDir then tables ++ [f.name] else tables) acc
      = acc ++ (files.filter (fun f => f.isDir)).map DirEntry.name := by
  induction files generalizing acc with
  | nil => simp
  | cons f fs ih =>
      cases h : f.isDir <;> simp [List.filter_cons, h, ih]

/-- The discovery loop keeps exactly the directory entries, in order. -/
theorem discoverTables_eq (files : List DirEntry) :
    discoverTables files = (files.filter (fun f => f.isDir)).map DirEntry.name := by
  simpa using discoverTables_go files []

theorem mkdirCmd_ne_probeCmd (dir : String) : ("mkdir -p " ++ dir) ≠ "./duckdb" := by
  intro h
  have h2 := congrArg String.data h
  rw [String.data_append] at h2
  simp at h2

theorem mkdirCmd_ne_chmodCmd (dir : String) :
    ("mkdir -p " ++ dir) ≠ "chmod 755 duckdb" := by
  intro h
  have h2 := congrArg String.data h
  rw [String.data_append] at h2
  simp at h2

theorem oracleOps_connect {E : Type} (o : Oracle E) (st : TraceSt) :
    (oracleOps o).connect st = (logStep st .connect, o.connectR) := rfl

theorem oracleOps_readDir {E : Type} (o : Oracle E) (p : String) (st : TraceSt) :
    (oracleOps o).readDir p st = (logStep st (.readDirStep p), o.readDirR) := rfl

theorem oracleOps_newSession {E : Type} (o : Oracle E) (st : TraceSt) :
    (oracleOps o).newSession st = (logStep st .newSession, o.newSessionR) := rfl

theorem oracleOps_stdinPipe {E : Type} (o : Oracle E) (st : TraceSt) :
    (oracleOps o).stdinPipe st = (logStep st .stdinPipe, o.stdinPipeR) := rfl

theorem oracleOps_start {E : Type} (o : Oracle E) (cmd : String) (st : TraceSt) :
    (oracleOps o).start cmd st = (logStep st (.startCmd cmd), o.startR) := rfl

theorem oracleOps_writeStr {E : Type} (o : Oracle E) (sql : String) (st : TraceSt) :
    (oracleOps o).writeStr sql st = (logStep st (.writeSQL sql), o.writeR) := rfl

theorem oracleOps_closeStdin {E : Type} (o : Oracle E) (st : TraceSt) :
    (oracleOps o).closeStdin st = (logStep st .closeStdin, o.closeStdinR) := rfl

theorem oracleOps_wait {E : Type} (o : Oracle E) (st : TraceSt) :
    (oracleOps o).wait st
      = ({ logStep st .waitExit with sink := st.sink ++ o.output }, o.waitR) := rfl

theorem oracleOps_closeSessionEq {E : Type} (o : Oracle E) (st : TraceSt) :
    (oracleOps o).closeSession st = logStep st .closeSession := rfl

/-- Provisioning never writes to the sink. -/
theorem setupDuckDB_sink {E : Type} (o : Oracle E) (dir : String) (st : TraceSt) :
    ((setupDuckDB (oracleOps o) dir st).1).sink = st.sink := by
  rcases hm : o.cmdR ("mkdir -p " ++ dir) with e | u <;>
    rcases hp : o.cmdR "./duckdb" with e2 | u2 <;>
      rcases hu : o.uploadR with e3 | u3 <;>
        rcases hc : o.cmdR "chmod 755 duckdb" with e4 | u4 <;>
  simp [setupDuckDB, oracleOps, logStep, hm, hp, hu, hc]

/-- C1: for every non-empty table list and every user query, the rewritten
script is the fixed prefix, the per-table relation clauses joined with the
first clause bare and each subsequent clause preceded by a comma, and the
user query as the final statement `SELECT * FROM (<userQuery>)`; for tables
`events` and `users` and query `SELECT count(*) FROM events` the clauses
appear in listing order and the final statement is
`SELECT * FROM (SELECT count(*) FROM events)`. -/
theorem buildSQL_joins_and_wraps (directory query : String)
    (tables : List String) (h : tables ≠ []) :
    buildSQL directory tables query
      = "INSTALL 'parquet'; LOAD 'parquet'; "
        ++ joinComma (tables.map (relationClause directory))
        ++ (" SELECT * FROM (" ++ query ++ ") ")
    ∧ buildSQL directory ["events", "users"] "SELECT count(*) FROM events"
      = "INSTALL 'parquet'; LOAD 'parquet'; "
        ++ (relationClause directory "events" ++ ","
            ++ relationClause directory "users")
        ++ " SELECT * FROM (SELECT count(*) FROM events) " := by
  refine ⟨buildSQL_eq directory query tables, ?_⟩
  rw [buildSQL_eq]
  simp [joinComma, String.append_assoc]

/-- Witness for C1 at a concrete non-empty table list. -/
theorem buildSQL_joins_and_wraps_witness :
    buildSQL "/data" ["events"] "SELECT 1"
      = "INSTALL 'parquet'; LOAD 'parquet'; "
        ++ joinComma (["events"].map (relationClause "/data"))
        ++ (" SELECT * FROM (" ++ "SELECT 1" ++ ") ")
    ∧ buildSQL "/data" ["events", "users"] "SELECT count(*) FROM events"
      = "INSTALL 'parquet'; LOAD 'parquet'; "
        ++ (relationClause "/data" "events" ++ ","
            ++ relationClause "/data" "users")
        ++ " SELECT * FROM (SELECT count(*) FROM events) " :=
  buildSQL_joins_and_wraps "/data" "SELECT 1" ["events"] (by simp)

/-- C7: with zero discovered partitions the script still builds, declares no
relations, and still wraps the user query; for `SELECT 1` the final statement
is `SELECT * FROM (SELECT 1)`. -/
theorem buildSQL_empty_tables (directory query : String) :
    buildSQL directory [] query
      = "INSTALL 'parquet'; LOAD 'parquet';  SELECT * FROM (" ++ query ++ ") "
    ∧ buildSQL directory [] "SELECT 1"
      = "INSTALL 'parquet'; LOAD 'parquet';  SELECT * FROM (SELECT 1) "
    ∧ discoverTables [] = [] := by
  refine ⟨?_, ?_, rfl⟩
  · rw [buildSQL_eq]
    simp only [List.map_nil, joinComma, String.append_empty]
    rw [← String.append_assoc, ← String.append_assoc]
    congr 2
  · rw [buildSQL_eq]
    simp only [List.map_nil, joinComma, String.append_empty]
    rw [← String.append_assoc, ← String.append_assoc]
    decide


/-- C2: the relations declared in the rewritten query are exactly the
directory entries of the listing, in listing order: every directory entry
yields one relation, every non-directory entry none, and a listing with no
subdirectories yields an empty table list while the request still proceeds
(and succeeds when the remaining steps succeed), declaring zero relations. -/
theorem discovery_matches_listing (E : Type) :
    (∀ files : List DirEntry,
      discoverTables files = (files.filter (fun f => f.isDir)).map DirEntry.name)
    ∧ (∀ files : List DirEntry, (∀ f ∈ files, f.isDir = false) →
        discoverTables files = [])
    ∧ (∀ (o : Oracle E) (dir q : String) (st2 : TraceSt) (files : List DirEntry),
        o.connectR = .ok () →
        setupDuckDB (oracleOps o) dir (logStep TraceSt.init Step.connect) = (st2, .ok ()) →
        o.readDirR = .ok files →
        o.newSessionR = .ok () → o.stdinPipeR = .ok () → o.startR = .ok () →
        o.writeR = .ok () → o.closeStdinR = .ok () → o.waitR = .ok () →
        (QueryJSON (oracleOps o) dir q TraceSt.init).2 = .ok ()
        ∧ (QueryJSON (oracleOps o) dir q TraceSt.init).1.trace
            = st2.trace ++ [Step.readDirStep dir, Step.newSession, Step.stdinPipe,
                Step.startCmd "./duckdb --json",
                Step.writeSQL (buildSQL dir (discoverTables files) (TrimQuery q)),
                Step.closeStdin, Step.waitExit, Step.closeSession]) := by
  refine ⟨discoverTables_eq, ?_, ?_⟩
  · intro files hnd
    rw [discoverTables_eq]
    rw [List.filter_eq_nil_iff.mpr ?_]
    · simp
    · intro f hf
      simp [hnd f hf]
  · intro o dir q st2 files hc hs hr hn hp hst hw hcl hwt
    have hmain : QueryJSON (oracleOps o) dir q TraceSt.init
        = ((⟨st2.trace ++ [Step.readDirStep dir, Step.newSession, Step.stdinPipe,
              Step.startCmd "./duckdb --json",
              Step.writeSQL (buildSQL dir (discoverTables files) (TrimQuery q)),
              Step.closeStdin, Step.waitExit, Step.closeSession],
            st2.sink ++ o.output⟩ : TraceSt), .ok ()) := by
      simp only [QueryJSON, oracleOps_connect, hc]
      rw [hs]
      simp [queryDuckDB, queryDuckDBSession, oracleOps_readDir, oracleOps_newSession,
        oracleOps_stdinPipe, oracleOps_start, oracleOps_writeStr, oracleOps_closeStdin,
        oracleOps_wait, oracleOps_closeSessionEq, hr, hn, hp, hst, hw, hcl, hwt, logStep]
    rw [hmain]
    exact ⟨rfl, rfl⟩

/-- C3: each step of QueryJSON/queryDuckDB is a hard dependency on the
previous one: the first failing step makes the call return that step's error
with no later step performed (the returned trace ends at the failing step,
apart from the deferred session close), and a non-zero subprocess exit
(`wait` failing) is surfaced as an error even though the subprocess output
was already written to the sink. -/
theorem queryJSON_failfast {E : Type} (o : Oracle E) (dir q : String) :
    (∀ e, o.connectR = .error e →
      QueryJSON (oracleOps o) dir q TraceSt.init = (⟨[Step.connect], ""⟩, .error e))
    ∧ (∀ st2 e, o.connectR = .ok () →
        setupDuckDB (oracleOps o) dir (logStep TraceSt.init Step.connect)
          = (st2, .error e) →
        QueryJSON (oracleOps o) dir q TraceSt.init = (st2, .error e))
    ∧ (∀ st2, o.connectR = .ok () →
        setupDuckDB (oracleOps o) dir (logStep TraceSt.init Step.connect)
          = (st2, .ok ()) →
        (∀ e, o.readDirR = .error e →
          QueryJSON (oracleOps o) dir q TraceSt.init
            = (logStep st2 (.readDirStep dir), .error e))
        ∧ (∀ files : List DirEntry, o.readDirR = .ok files →
            (∀ e, o.newSessionR = .error e →
              QueryJSON (oracleOps o) dir q TraceSt.init
                = (logStep (logStep st2 (.readDirStep dir)) .newSession, .error e))
            ∧ (o.newSessionR = .ok () →
                (∀ e, o.stdinPipeR = .error e →
                  QueryJSON (oracleOps o) dir q TraceSt.init
                    = (logStep (logStep (logStep (logStep st2 (.readDirStep dir))
                        .newSession) .stdinPipe) .closeSession, .error e))
                ∧ (o.stdinPipeR = .ok () →
                    (∀ e, o.startR = .error e →
                      QueryJSON (oracleOps o) dir q TraceSt.init
                        = (logStep (logStep (logStep (logStep (logStep st2
                            (.readDirStep dir)) .newSession) .stdinPipe)
                            (.startCmd "./duckdb --json")) .closeSession, .error e))
                    ∧ (o.startR = .ok () →
                        (∀ e, o.writeR = .error e →
                          QueryJSON (oracleOps o) dir q TraceSt.init
                            = (logStep (logStep (logStep (logStep (logStep (logStep st2
                                (.readDirStep dir)) .newSession) .stdinPipe)
                                (.startCmd "./duckdb --json"))
                                (.writeSQL (buildSQL dir (discoverTables files)
                                  (TrimQuery q)))) .closeSession, .error e))
                        ∧ (o.writeR = .ok () →
                            (∀ e, o.closeStdinR = .error e →
                              QueryJSON (oracleOps o) dir q TraceSt.init
                                = (logStep (logStep (logStep (logStep (logStep (logStep
                                    (logStep st2 (.readDirStep dir)) .newSession)
                                    .stdinPipe) (.startCmd "./duckdb --json"))
                                    (.writeSQL (buildSQL dir (discoverTables files)
                                      (TrimQuery q)))) .closeStdin) .closeSession,
                                    .error e))
                            ∧ (o.closeStdinR = .ok () →
                                (∀ e, o.waitR = .error e →
                                  (QueryJSON (oracleOps o) dir q TraceSt.init).2
                                      = .error e
                                  ∧ (QueryJSON (oracleOps o) dir q TraceSt.init).1.sink
                                      = o.output)
                                ∧ (o.waitR = .ok () →
                                    (QueryJSON (oracleOps o) dir q TraceSt.init).2
                                      = .ok ()
                                    ∧ (QueryJSON (oracleOps o) dir q
                                        TraceSt.init).1.sink = o.output)))))))) := by
  refine ⟨?_, ?_, ?_⟩
  · intro e hc
    simp [QueryJSON, oracleOps_connect, hc, TraceSt.init, logStep]
  · intro st2 e hc hs
    simp only [QueryJSON, oracleOps_connect, hc]
    rw [hs]
  · intro st2 hc hs
    have hsink : st2.sink = "" := by
      have h := setupDuckDB_sink o dir (logStep TraceSt.init Step.connect)
      rw [hs] at h
      exact h
    refine ⟨?_, ?_⟩
    · intro e hr
      simp only [QueryJSON, oracleOps_connect, hc]
      rw [hs]
      simp [queryDuckDB, oracleOps_readDir, hr]
    · intro files hr
      refine ⟨?_, ?_⟩
      · intro e hn
        simp only [QueryJSON, oracleOps_connect, hc]
        rw [hs]
        simp [queryDuckDB, oracleOps_readDir, oracleOps_newSession, hr, hn]
      · intro hn
        refine ⟨?_, ?_⟩
        · intro e hp
          simp only [QueryJSON, oracleOps_connect, hc]
          rw [hs]
          simp [queryDuckDB, queryDuckDBSession, oracleOps_readDir, oracleOps_newSession,
            oracleOps_stdinPipe, oracleOps_closeSessionEq, hr, hn, hp]
        · intro hp
          refine ⟨?_, ?_⟩
          · intro e hst
            simp only [QueryJSON, oracleOps_connect, hc]
            rw [hs]
            simp [queryDuckDB, queryDuckDBSession, oracleOps_readDir,
              oracleOps_newSession, oracleOps_stdinPipe, oracleOps_start,
              oracleOps_closeSessionEq, hr, hn, hp, hst]
          · intro hst
            refine ⟨?_, ?_⟩
            · intro e hw
              simp only [QueryJSON, oracleOps_connect, hc]
              rw [hs]
              simp [queryDuckDB, queryDuckDBSession, oracleOps_readDir,
                oracleOps_newSession, oracleOps_stdinPipe, oracleOps_start,
                oracleOps_writeStr, oracleOps_closeSessionEq, hr, hn, hp, hst, hw]
            · intro hw
              refine ⟨?_, ?_⟩
              · intro e hcl
                simp only [QueryJSON, oracleOps_connect, hc]
                rw [hs]
                simp [queryDuckDB, queryDuckDBSession, oracleOps_readDir,
                  oracleOps_newSession, oracleOps_stdinPipe, oracleOps_start,
                  oracleOps_writeStr, oracleOps_closeStdin, oracleOps_closeSessionEq,
                  hr, hn, hp, hst, hw, hcl]
              · intro hcl
                have hrest : ∀ r : Except E Unit, o.waitR = r →
                    QueryJSON (oracleOps o) dir q TraceSt.init
                      = ((⟨st2.trace ++ [Step.readDirStep dir, Step.newSession,
                          Step.stdinPipe, Step.startCmd "./duckdb --json",
                          Step.writeSQL (buildSQL dir (discoverTables files)
                            (TrimQuery q)),
                          Step.closeStdin, Step.waitExit, Step.closeSession],
                          st2.sink ++ o.output⟩ : TraceSt), r) := by
                  intro r hwt
                  simp only [QueryJSON, oracleOps_connect, hc]
                  rw [hs]
                  simp [queryDuckDB, queryDuckDBSession, oracleOps_readDir,
                    oracleOps_newSession, oracleOps_stdinPipe, oracleOps_start,
                    oracleOps_writeStr, oracleOps_closeStdin, oracleOps_wait,
                    oracleOps_closeSessionEq, hr, hn, hp, hst, hw, hcl, hwt, logStep]
                refine ⟨?_, ?_⟩
                · intro e hwt
                  rw [hrest (.error e) hwt]
                  exact ⟨rfl, by rw [show ((⟨st2.trace ++ [Step.readDirStep dir,
                    Step.newSession, Step.stdinPipe, Step.startCmd "./duckdb --json",
                    Step.writeSQL (buildSQL dir (discoverTables files) (TrimQuery q)),
                    Step.closeStdin, Step.waitExit, Step.closeSession],
                    st2.sink ++ o.output⟩ : TraceSt), Except.error (α := Unit) e).1.sink
                      = st2.sink ++ o.output from rfl, hsink, String.empty_append]⟩
                · intro hwt
                  rw [hrest (.ok ()) hwt]
                  exact ⟨rfl, by rw [show ((⟨st2.trace ++ [Step.readDirStep dir,
                    Step.newSession, Step.stdinPipe, Step.startCmd "./duckdb --json",
                    Step.writeSQL (buildSQL dir (discoverTables files) (TrimQuery q)),
                    Step.closeStdin, Step.waitExit, Step.closeSession],
                    st2.sink ++ o.output⟩ : TraceSt), Except.ok (ε := E) ()).1.sink
                      = st2.sink ++ o.output from rfl, hsink, String.empty_append]⟩


/-- Witness for C2 at the all-success oracle with listing
`events/`, `users/`, `stray.parquet`. -/
theorem discovery_matches_listing_witness :
    (QueryJSON (oracleOps okOracle) "/data" "SELECT 1" TraceSt.init).2 = .ok ()
    ∧ (QueryJSON (oracleOps okOracle) "/data" "SELECT 1" TraceSt.init).1.trace
        = (⟨[Step.connect, Step.runLine "mkdir -p /data", Step.runLine "./duckdb"],
            ""⟩ : TraceSt).trace
          ++ [Step.readDirStep "/data", Step.newSession, Step.stdinPipe,
              Step.startCmd "./duckdb --json",
              Step.writeSQL (buildSQL "/data"
                (discoverTables [⟨"events", true⟩, ⟨"users", true⟩,
                  ⟨"stray.parquet", false⟩]) (TrimQuery "SELECT 1")),
              Step.closeStdin, Step.waitExit, Step.closeSession] :=
  (discovery_matches_listing String).2.2 okOracle "/data" "SELECT 1"
    ⟨[Step.connect, Step.runLine "mkdir -p /data", Step.runLine "./duckdb"], ""⟩
    [⟨"events", true⟩, ⟨"users", true⟩, ⟨"stray.parquet", false⟩]
    rfl rfl rfl rfl rfl rfl rfl rfl rfl

/-- Witness for C3: a failing connect returns the dial error with no later
step performed. -/
theorem queryJSON_failfast_witness :
    QueryJSON (oracleOps { okOracle with connectR := .error "dial tcp: refused" })
        "/data" "SELECT 1" TraceSt.init
      = (⟨[Step.connect], ""⟩, .error "dial tcp: refused") :=
  (queryJSON_failfast { okOracle with connectR := .error "dial tcp: refused" }
    "/data" "SELECT 1").1 "dial tcp: refused" rfl

/-- Provisioning never writes SQL to the subprocess. -/
theorem setupDuckDB_no_write {E : Type} (o : Oracle E) (dir : String) (st : TraceSt) :
    ((setupDuckDB (oracleOps o) dir st).1).trace.filter Step.isWrite
      = st.trace.filter Step.isWrite := by
  rcases hm : o.cmdR ("mkdir -p " ++ dir) with e | u <;>
    rcases hp : o.cmdR "./duckdb" with e2 | u2 <;>
      rcases hu : o.uploadR with e3 | u3 <;>
        rcases hc : o.cmdR "chmod 755 duckdb" with e4 | u4 <;>
  simp [setupDuckDB, oracleOps, logStep, List.filter_append, Step.isWrite,
    hm, hp, hu, hc]

/-- C4: QueryJSON sanitizes the user query with `util.TrimQuery` before
embedding it: the sanitized text contains no statement terminator `;`, and
the only SQL ever written to the engine is the script that wraps exactly the
sanitized query, so the embedded text cannot terminate the wrapping
statement. -/
theorem queryJSON_sanitizes (E : Type) :
    (∀ q : String, (TrimQuery q).data.count ';' = 0)
    ∧ (∀ (o : Oracle E) (dir q : String) (st2 : TraceSt) (files : List DirEntry),
        o.connectR = .ok () →
        setupDuckDB (oracleOps o) dir (logStep TraceSt.init Step.connect)
          = (st2, .ok ()) →
        o.readDirR = .ok files →
        o.newSessionR = .ok () → o.stdinPipeR = .ok () → o.startR = .ok () →
        o.writeR = .ok () → o.closeStdinR = .ok () → o.waitR = .ok () →
        ((QueryJSON (oracleOps o) dir q TraceSt.init).1.trace).filter Step.isWrite
          = [Step.writeSQL (buildSQL dir (discoverTables files) (TrimQuery q))]) := by
  constructor
  · intro q
    rw [List.count_eq_zero]
    intro hmem
    have := List.of_mem_filter (p := fun c => decide (c ≠ ';')) hmem
    simp at this
  · intro o dir q st2 files hc hs hr hn hp hst hw hcl hwt
    have hflt : st2.trace.filter Step.isWrite = [] := by
      have h := setupDuckDB_no_write o dir (logStep TraceSt.init Step.connect)
      rw [hs] at h
      simpa [logStep, TraceSt.init, Step.isWrite] using h
    have hmain : QueryJSON (oracleOps o) dir q TraceSt.init
        = ((⟨st2.trace ++ [Step.readDirStep dir, Step.newSession, Step.stdinPipe,
              Step.startCmd "./duckdb --json",
              Step.writeSQL (buildSQL dir (discoverTables files) (TrimQuery q)),
              Step.closeStdin, Step.waitExit, Step.closeSession],
            st2.sink ++ o.output⟩ : TraceSt), .ok ()) := by
      simp only [QueryJSON, oracleOps_connect, hc]
      rw [hs]
      simp [queryDuckDB, queryDuckDBSession, oracleOps_readDir, oracleOps_newSession,
        oracleOps_stdinPipe, oracleOps_start, oracleOps_writeStr, oracleOps_closeStdin,
        oracleOps_wait, oracleOps_closeSessionEq, hr, hn, hp, hst, hw, hcl, hwt, logStep]
    rw [hmain]
    simp [List.filter_append, hflt, Step.isWrite]

/-- Witness for C4: a query with an embedded statement terminator is
stripped before being wrapped and written. -/
theorem queryJSON_sanitizes_witness :
    ((QueryJSON (oracleOps okOracle) "/data" "SELECT 1; DROP TABLE events"
        TraceSt.init).1.trace).filter Step.isWrite
      = [Step.writeSQL (buildSQL "/data"
          (discoverTables [⟨"events", true⟩, ⟨"users", true⟩,
            ⟨"stray.parquet", false⟩])
          (TrimQuery "SELECT 1; DROP TABLE events"))] :=
  (queryJSON_sanitizes String).2 okOracle "/data" "SELECT 1; DROP TABLE events"
    ⟨[Step.connect, Step.runLine "mkdir -p /data", Step.runLine "./duckdb"], ""⟩
    [⟨"events", true⟩, ⟨"users", true⟩, ⟨"stray.parquet", false⟩]
    rfl rfl rfl rfl rfl rfl rfl rfl rfl

/-- C5: provisioning first runs `mkdir -p <directory>` (so a pre-existing
directory is not an error), then probes with `./duckdb`; a mkdir failure is
returned as-is; if the probe succeeds nothing else happens and the call
succeeds; if the probe fails for any reason the binary is uploaded and
`chmod 755`-ed, and the call fails exactly when the upload or the chmod
fails, returning that error. -/
theorem setupDuckDB_error_contract {E : Type} (o : Oracle E) (dir : String)
    (st : TraceSt) :
    (∃ rest, (setupDuckDB (oracleOps o) dir st).1.trace
        = st.trace ++ Step.runLine ("mkdir -p " ++ dir) :: rest)
    ∧ (∀ e, o.cmdR ("mkdir -p " ++ dir) = .error e →
        (setupDuckDB (oracleOps o) dir st).2 = .error e)
    ∧ (o.cmdR ("mkdir -p " ++ dir) = .ok () → o.cmdR "./duckdb" = .ok () →
        (setupDuckDB (oracleOps o) dir st).2 = .ok ()
        ∧ (setupDuckDB (oracleOps o) dir st).1.trace
            = st.trace ++ [Step.runLine ("mkdir -p " ++ dir), Step.runLine "./duckdb"])
    ∧ (∀ e2, o.cmdR ("mkdir -p " ++ dir) = .ok () → o.cmdR "./duckdb" = .error e2 →
        (∀ e, o.uploadR = .error e → (setupDuckDB (oracleOps o) dir st).2 = .error e)
        ∧ (∀ e, o.uploadR = .ok () → o.cmdR "chmod 755 duckdb" = .error e →
            (setupDuckDB (oracleOps o) dir st).2 = .error e)
        ∧ (o.uploadR = .ok () → o.cmdR "chmod 755 duckdb" = .ok () →
            (setupDuckDB (oracleOps o) dir st).2 = .ok ())) := by
  refine ⟨?_, ?_, ?_, ?_⟩
  · rcases hm : o.cmdR ("mkdir -p " ++ dir) with e | u
    · exact ⟨[], by simp [setupDuckDB, oracleOps, hm, logStep]⟩
    · rcases hp : o.cmdR "./duckdb" with e2 | u2
      · rcases hu : o.uploadR with e3 | u3
        · exact ⟨[.runLine "./duckdb", .sftpUp "pkg/destinations/ssh/duckdb" "duckdb"],
            by simp [setupDuckDB, oracleOps, hm, hp, hu, logStep]⟩
        · exact ⟨[.runLine "./duckdb", .sftpUp "pkg/destinations/ssh/duckdb" "duckdb",
            .runLine "chmod 755 duckdb"],
            by rcases hc : o.cmdR "chmod 755 duckdb" with e4 | u4 <;>
              simp [setupDuckDB, oracleOps, hm, hp, hu, hc, logStep]⟩
      · exact ⟨[.runLine "./duckdb"], by simp [setupDuckDB, oracleOps, hm, hp, logStep]⟩
  · intro e hm
    simp [setupDuckDB, oracleOps, hm]
  · intro hm hp
    constructor
    · simp [setupDuckDB, oracleOps, hm, hp]
    · simp [setupDuckDB, oracleOps, hm, hp, logStep]
  · intro e2 hm hp
    refine ⟨?_, ?_, ?_⟩
    · intro e hu
      simp [setupDuckDB, oracleOps, hm, hp, hu]
    · intro e hu hc
      simp [setupDuckDB, oracleOps, hm, hp, hu, hc]
    · intro hu hc
      simp [setupDuckDB, oracleOps, hm, hp, hu, hc]

/-- Witness for C5: with a healthy remote, provisioning runs exactly
mkdir and the probe and succeeds. -/
theorem setupDuckDB_error_contract_witness :
    (setupDuckDB (oracleOps okOracle) "/data" TraceSt.init).2 = .ok ()
    ∧ (setupDuckDB (oracleOps okOracle) "/data" TraceSt.init).1.trace
        = TraceSt.init.trace
          ++ [Step.runLine ("mkdir -p " ++ "/data"), Step.runLine "./duckdb"] :=
  (setupDuckDB_error_contract okOracle "/data" TraceSt.init).2.2.1 rfl rfl

/-- C6: provisioning is idempotent with respect to installation: when a
first `setupDuckDB` call succeeds, a second call on the resulting remote
state performs no further upload (its probe succeeds), so the two calls
together perform at most one upload. -/
theorem setupDuckDB_at_most_one_upload (r : Remote) (dir : String)
    (h1 : (setupDuckDB remoteOps dir r).2 = .ok ()) :
    (setupDuckDB remoteOps dir (setupDuckDB remoteOps dir r).1).1.uploads
      = (setupDuckDB remoteOps dir r).1.uploads
    ∧ (setupDuckDB remoteOps dir r).1.uploads ≤ r.uploads + 1 := by
  have hne1 := mkdirCmd_ne_probeCmd dir
  have hne2 := mkdirCmd_ne_chmodCmd dir
  cases hm : r.mkdirOk <;>
    cases hpe : r.binPresent <;>
      cases hex : r.binExec <;>
        cases hu : r.uploadOk <;>
          cases hc : r.chmodOk <;>
  simp_all [setupDuckDB, remoteOps, remoteRunCmd]

/-- Witness for C6: a remote without the binary gets exactly one upload
across two provisioning calls. -/
theorem setupDuckDB_at_most_one_upload_witness :
    (setupDuckDB remoteOps "/data"
        (setupDuckDB remoteOps "/data" ⟨false, false, false, true, true, true, 0⟩).1).1.uploads
      = (setupDuckDB remoteOps "/data" ⟨false, false, false, true, true, true, 0⟩).1.uploads
    ∧ (setupDuckDB remoteOps "/data"
        ⟨false, false, false, true, true, true, 0⟩).1.uploads
      ≤ (⟨false, false, false, true, true, true, 0⟩ : Remote).uploads + 1 :=
  setupDuckDB_at_most_one_upload ⟨false, false, false, true, true, true, 0⟩ "/data" rfl

theorem closeConn_notin_logStep (st : TraceSt) (s : Step)
    (h : Step.closeConn ∉ st.trace) (hs : s ≠ Step.closeConn) :
    Step.closeConn ∉ (logStep st s).trace := by
  intro hmem
  rcases List.mem_append.mp hmem with h1 | h1
  · exact h h1
  · rw [List.mem_singleton] at h1
    exact hs h1.symm

theorem closeConn_notin_setup {E : Type} (o : Oracle E) (dir : String)
    (st : TraceSt) (h : Step.closeConn ∉ st.trace) :
    Step.closeConn ∉ ((setupDuckDB (oracleOps o) dir st).1).trace := by
  rcases hm : o.cmdR ("mkdir -p " ++ dir) with e | u <;>
    rcases hp : o.cmdR "./duckdb" with e2 | u2 <;>
      rcases hu : o.uploadR with e3 | u3 <;>
        rcases hc : o.cmdR "chmod 755 duckdb" with e4 | u4 <;>
  simp_all [setupDuckDB, oracleOps, logStep, hm, hp, hu, hc]

theorem closeConn_notin_session {E : Type} (o : Oracle E) (sql : String)
    (st : TraceSt) (h : Step.closeConn ∉ st.trace) :
    Step.closeConn ∉ ((queryDuckDBSession (oracleOps o) sql st).1).trace := by
  rcases hp : o.stdinPipeR with e | u <;>
    rcases hst : o.startR with e2 | u2 <;>
      rcases hw : o.writeR with e3 | u3 <;>
        rcases hcl : o.closeStdinR with e4 | u4 <;>
  simp_all [queryDuckDBSession, oracleOps, logStep, hp, hst, hw, hcl]

theorem closeConn_notin_queryDuckDB {E : Type} (o : Oracle E) (dir q : String)
    (st : TraceSt) (h : Step.closeConn ∉ st.trace) :
    Step.closeConn ∉ ((queryDuckDB (oracleOps o) dir q st).1).trace := by
  rcases hr : o.readDirR with e | files
  · simpa [queryDuckDB, oracleOps_readDir, hr] using
      closeConn_notin_logStep st (.readDirStep dir) h (by simp)
  · rcases hn : o.newSessionR with e2 | u2
    · simp only [queryDuckDB, oracleOps_readDir, oracleOps_newSession, hr, hn]
      exact closeConn_notin_logStep _ .newSession
        (closeConn_notin_logStep st (.readDirStep dir) h (by simp)) (by simp)
    · simp only [queryDuckDB, oracleOps_readDir, oracleOps_newSession, hr, hn]
      have hbase : Step.closeConn ∉
          (logStep (logStep st (.readDirStep dir)) .newSession).trace :=
        closeConn_notin_logStep _ .newSession
          (closeConn_notin_logStep st (.readDirStep dir) h (by simp)) (by simp)
      have hses := closeConn_notin_session o
        (buildSQL dir (discoverTables files) q) _ hbase
      exact closeConn_notin_logStep _ .closeSession hses (by simp)

theorem closeConn_notin_queryJSON {E : Type} (o : Oracle E) (dir q : String) :
    Step.closeConn ∉ ((QueryJSON (oracleOps o) dir q TraceSt.init).1).trace := by
  have hinit : Step.closeConn ∉ (logStep TraceSt.init Step.connect).trace := by
    simp [logStep, TraceSt.init]
  rcases hc : o.connectR with e | u
  · simp [QueryJSON, oracleOps_connect, hc, TraceSt.init, logStep]
  · simp only [QueryJSON, oracleOps_connect, hc]
    rcases hs : setupDuckDB (oracleOps o) dir (logStep TraceSt.init Step.connect)
      with ⟨st2, r⟩
    have hst2 : Step.closeConn ∉ st2.trace := by
      have := closeConn_notin_setup o dir (logStep TraceSt.init Step.connect) hinit
      rw [hs] at this
      exact this
    rcases r with e2 | u3
    · exact hst2
    · exact closeConn_notin_queryDuckDB o dir (TrimQuery q) st2 hst2

/-- C8: the interactive session is closed on every exit path after its
creation, but the SSH connection opened by QueryJSON is never closed:
no trace of any request, failing or successful, contains a
connection-close event, while successful and failing runs both contain the
(deferred) session close. -/
theorem queryJSON_never_closes_connection :
    (∀ (E : Type) (o : Oracle E) (dir q : String),
      ((QueryJSON (oracleOps o) dir q TraceSt.init).1.trace).count Step.closeConn = 0)
    ∧ (QueryJSON (oracleOps okOracle) "/data" "SELECT 1" TraceSt.init).2 = .ok ()
    ∧ ((QueryJSON (oracleOps okOracle) "/data" "SELECT 1"
        TraceSt.init).1.trace).count Step.closeSession = 1
    ∧ (QueryJSON (oracleOps { okOracle with waitR := .error "exit status 1" })
        "/data" "SELECT 1" TraceSt.init).2 = .error "exit status 1"
    ∧ ((QueryJSON (oracleOps { okOracle with waitR := .error "exit status 1" })
        "/data" "SELECT 1" TraceSt.init).1.trace).count Step.closeSession = 1 := by
  refine ⟨?_, rfl, rfl, rfl, rfl⟩
  intro E o dir q
  rw [List.count_eq_zero]
  exact closeConn_notin_queryJSON o dir q

/-- C9: Upload retries exactly once, creating the bucket first, only on a
NoSuchBucket aws error: a successful put returns immediately; a put failure
that is not an aws NoSuchBucket error is returned with no bucket creation
and no retry; on NoSuchBucket the code performs exactly one create-bucket
call and exactly one retried put reading from the position the reader had
on entry, and a failure of the retried put (or of the bucket creation) is
returned as an error. -/
theorem s3Upload_retry_contract (s : Storage) (w : S3World) (path : String) :
    (w.seekCurErr = none → w.put1 = none →
      Storage.Upload s w path
        = ([.seekCurrent, .putObject s.bucket path w.entryPos], .ok ()))
    ∧ (∀ err, w.seekCurErr = none → w.put1 = some err →
        err.isNoSuchBucket = false →
        Storage.Upload s w path
          = ([.seekCurrent, .putObject s.bucket path w.entryPos],
              .error ("Storage.Upload: " ++ path ++ ": " ++ err.msg)))
    ∧ (∀ err e, w.seekCurErr = none → w.put1 = some err →
        err.isNoSuchBucket = true → w.createErr = some e →
        Storage.Upload s w path
          = ([.seekCurrent, .putObject s.bucket path w.entryPos,
              .createBucket s.bucket],
              .error ("Storage.Upload: " ++ path ++ ": Cannot create bucket: " ++ e)))
    ∧ (∀ err, w.seekCurErr = none → w.put1 = some err →
        err.isNoSuchBucket = true → w.createErr = none → w.seekSetErr = none →
        (Storage.Upload s w path).1
          = [.seekCurrent, .putObject s.bucket path w.entryPos,
             .createBucket s.bucket, .seekStart w.entryPos,
             .putObject s.bucket path w.entryPos]
        ∧ (w.put2 = none → (Storage.Upload s w path).2 = .ok ())
        ∧ (∀ err2, w.put2 = some err2 →
            (Storage.Upload s w path).2
              = .error ("Storage.Upload: " ++ path ++ ": " ++ err2.msg))) := by
  refine ⟨?_, ?_, ?_, ?_⟩
  · intro h1 h2
    simp [Storage.Upload, h1, h2]
  · intro err h1 h2 h3
    simp [Storage.Upload, h1, h2, h3]
  · intro err e h1 h2 h3 h4
    simp [Storage.Upload, h1, h2, h3, h4]
  · intro err h1 h2 h3 h4 h5
    refine ⟨?_, ?_, ?_⟩
    · rcases hp2 : w.put2 with _ | err2 <;>
        simp [Storage.Upload, h1, h2, h3, h4, h5, hp2]
    · intro h6
      simp [Storage.Upload, h1, h2, h3, h4, h5, h6]
    · intro err2 h6
      simp [Storage.Upload, h1, h2, h3, h4, h5, h6]

/-- Witness for C9: a put into a missing bucket creates the bucket and
retries once from the entry offset, successfully. -/
theorem s3Upload_retry_contract_witness :
    (Storage.Upload ⟨"data"⟩ ⟨7, none, some (.api "NoSuchBucket" "bucket absent"),
        none, none, none⟩ "a/b.parquet").1
      = [.seekCurrent, .putObject "data" "a/b.parquet" 7, .createBucket "data",
         .seekStart 7, .putObject "data" "a/b.parquet" 7]
    ∧ (Storage.Upload ⟨"data"⟩ ⟨7, none, some (.api "NoSuchBucket" "bucket absent"),
        none, none, none⟩ "a/b.parquet").2 = .ok () :=
  ⟨((s3Upload_retry_contract ⟨"data"⟩
      ⟨7, none, some (.api "NoSuchBucket" "bucket absent"), none, none, none⟩
      "a/b.parquet").2.2.2 (.api "NoSuchBucket" "bucket absent")
      rfl rfl rfl rfl rfl).1,
   ((s3Upload_retry_contract ⟨"data"⟩
      ⟨7, none, some (.api "NoSuchBucket" "bucket absent"), none, none, none⟩
      "a/b.parquet").2.2.2 (.api "NoSuchBucket" "bucket absent")
      rfl rfl rfl rfl rfl).2.1 rfl⟩

/-- C10: the SSH destination rejects every ingestion request with a non-nil
error; data can only be queried through it, never inserted. -/
theorem insertBatch_always_errors (input : String) :
    InsertBatchFromNDJson input = .error "Not implemented for ssh" := rfl

end Scratch
